import Mathlib

/-!
Verification of the PollSpace real-time notification subsystem.

Shallow embedding of the notification-relevant parts of
`backend/server.js` (notification store operations, the
`createNotification` helper, trigger sites in the vote / comment /
comment-like / poll-create / poll-status handlers, the Socket.IO room
handlers) and of the client reconciliation layer
(`frontend/src/context/NotificationContext.js` reducer and
`frontend/src/services/NotificationService.js`).

Conventions of the embedding:
- Mongo documents become Lean structures; the per-user notification log
  is a `List NotificationRec` in insertion order.
- Database saves that can fail are parameterised by a `saveOk : Bool`
  flag standing for whether the `await ... .save()` resolves or throws.
- Socket.IO emission is recorded as a list of `(room, payload)` pairs;
  the number of sockets present in a room is a parameter
  `roomSockets : String → Nat` (the server only reads it for logging).
- JS falsy-default expressions `x || 'd'` over possibly-empty strings
  are modelled by an emptiness test; optional values are `Option`.
-/

/-- The `data` subdocument of the Mongoose notification schema
(`server.js` `notificationSchema.data`), with the extra `message` and
`reason` fields read by `formatNotificationMessage`.  All fields default
to the empty string as in the schema. -/
structure NotificationData where
  voterName : String := ""
  commenterName : String := ""
  replierName : String := ""
  likerName : String := ""
  pollTitle : String := ""
  pollId : String := ""
  commentId : String := ""
  message : String := ""
  reason : String := ""
deriving Repr, DecidableEq

/-- A stored notification document (`notificationSchema` in `server.js`).
`timestamp` is epoch milliseconds. -/
structure NotificationRec where
  nid : String
  userId : String
  ntype : String
  message : String
  data : NotificationData
  priority : String
  isRead : Bool
  timestamp : Nat
deriving Repr, DecidableEq

/-- JS `x || 'd'`: the default is used when `x` is the empty string. -/
def orDefault (x d : String) : String :=
  if x = "" then d else x

/-- `formatNotificationMessage` from `server.js`: one literal template
per notification type, switching on the type string. -/
def formatNotificationMessage (ntype : String) (data : NotificationData) : String :=
  if ntype = "vote" then
    orDefault data.voterName "Someone" ++ " voted on your poll \"" ++ data.pollTitle ++ "\""
  else if ntype = "comment" then
    orDefault data.commenterName "Someone" ++ " commented on your poll \"" ++ data.pollTitle ++ "\""
  else if ntype = "reply" then
    orDefault data.replierName "Someone" ++ " replied to your comment on \"" ++ data.pollTitle ++ "\""
  else if ntype = "comment_like" then
    orDefault data.likerName "Someone" ++ " liked your comment on \"" ++ data.pollTitle ++ "\""
  else if ntype = "poll_created" then
    "Your poll \"" ++ data.pollTitle ++ "\" has been created successfully"
  else if ntype = "poll_closed" then
    if data.reason = "automatic_closure" then
      "Your poll \"" ++ data.pollTitle ++ "\" has been automatically closed as it reached its end date. Final results are now available."
    else
      "Your poll \"" ++ data.pollTitle ++ "\" has been closed. Final results are now available."
  else if ntype = "system" then
    orDefault data.message "System notification"
  else
    orDefault data.message "New notification"

/-- `getNotificationPriority` from `server.js`: `system` is high;
`reply`, `comment` and `poll_closed` are medium; `vote`, `comment_like`,
`poll_created` and every unknown type fall through to low. -/
def getNotificationPriority (ntype : String) : String :=
  if ntype = "system" then "high"
  else if ntype = "reply" then "medium"
  else if ntype = "comment" then "medium"
  else if ntype = "poll_closed" then "medium"
  else "low"

namespace NotificationService

/-- `NotificationService.getNotificationPriority` from
`frontend/src/services/NotificationService.js`: the client-side copy of
the priority mapping, with one explicit case per type. -/
def getNotificationPriority (ntype : String) : String :=
  if ntype = "system" then "high"
  else if ntype = "reply" then "medium"
  else if ntype = "comment" then "medium"
  else if ntype = "vote" then "low"
  else if ntype = "comment_like" then "low"
  else if ntype = "poll_created" then "low"
  else if ntype = "poll_closed" then "medium"
  else "low"

end NotificationService

/-- Outcome of one `createNotification` call: the notification log after
the call, the socket events emitted as `(room, payload)` pairs, and the
JS return value (`null` on failure). -/
structure CreateResult where
  store : List NotificationRec
  emitted : List (String × NotificationRec)
  ret : Option NotificationRec
deriving Repr, DecidableEq

/-- `createNotification` from `server.js`.  Builds the document, awaits
`notification.save()` (modelled by `saveOk`), then reads the socket
count of the target room (for logging only) and emits `newNotification`
to `user_{userId}`.  A save failure is caught inside the function: the
catch block logs and returns `null`, so nothing is appended and nothing
is emitted. -/
def createNotification (ntype : String) (data : NotificationData) (userId : String)
    (freshId : String) (now : Nat) (saveOk : Bool) (roomSockets : String → Nat)
    (store : List NotificationRec) : CreateResult :=
  let notification : NotificationRec :=
    { nid := freshId
      userId := userId
      ntype := ntype
      message := formatNotificationMessage ntype data
      data := data
      priority := getNotificationPriority ntype
      isRead := false
      timestamp := now }
  if saveOk then
    let _ := roomSockets ("user_" ++ userId)
    { store := store ++ [notification]
      emitted := [("user_" ++ userId, notification)]
      ret := some notification }
  else
    { store := store, emitted := [], ret := none }

example :
    (createNotification "vote" { voterName := "bob", pollTitle := "T" } "alice"
      "n1" 7 true (fun _ => 0) []).ret =
    some { nid := "n1", userId := "alice", ntype := "vote",
           message := "bob voted on your poll \"T\"",
           data := { voterName := "bob", pollTitle := "T" },
           priority := "low", isRead := false, timestamp := 7 } := by
  decide

example :
    (createNotification "vote" { voterName := "bob", pollTitle := "T" } "alice"
      "n1" 7 false (fun _ => 0) []).store = [] := by
  decide

/-! ## Trigger sites

Each state-changing endpoint in `server.js` that can create a
notification is embedded below.  Only the notification-relevant part of
each handler is modelled; the surrounding document mutations (saving the
vote, bumping counters) do not influence any claim. -/

/-- The fields of a poll document read by the notification triggers. -/
structure PollDoc where
  pid : String
  title : String
  creator : String
  status : String
  allow_multiple_votes : Bool
deriving Repr, DecidableEq

/-- The fields of a comment document read by the like trigger. -/
structure CommentDoc where
  cid : String
  user : String
  poll_id : String
deriving Repr, DecidableEq

/-- The notification step of `POST /api/polls/:id/vote`:
`if (poll.creator !== req.user.id) await createNotification('vote', …,
poll.creator)`. -/
def voteNotifyStep (poll : PollDoc) (voterId voterName : String) (freshId : String)
    (now : Nat) (saveOk : Bool) (roomSockets : String → Nat)
    (store : List NotificationRec) : CreateResult :=
  if poll.creator ≠ voterId then
    createNotification "vote"
      { voterName := voterName, pollTitle := poll.title, pollId := poll.pid }
      poll.creator freshId now saveOk roomSockets store
  else
    { store := store, emitted := [], ret := none }

/-- HTTP-level outcome of a request handler: response status, response
message, and the notification log after the request. -/
structure HandlerResult where
  status : Nat
  body : String
  store : List NotificationRec
deriving Repr, DecidableEq

/-- `POST /api/polls/:id/vote` from `server.js`, with its guard chain:
missing `option_id` is 400, missing poll 404, non-active poll 403,
duplicate vote 400, invalid option 400; otherwise the vote is recorded,
the notification step runs (its internal failure is swallowed), and the
handler responds 200 `Vote recorded successfully`. -/
def voteHandler (poll : Option PollDoc) (voterId voterName : String)
    (optionIdPresent optionValid alreadyVoted : Bool) (freshId : String) (now : Nat)
    (saveOk : Bool) (roomSockets : String → Nat)
    (store : List NotificationRec) : HandlerResult :=
  if !optionIdPresent then
    { status := 400, body := "Option ID is required", store := store }
  else
    match poll with
    | none => { status := 404, body := "Poll not found", store := store }
    | some poll =>
      if poll.status ≠ "active" then
        if poll.status = "draft" then
          { status := 403, body := "Cannot vote on draft polls", store := store }
        else if poll.status = "closed" then
          { status := 403, body := "This poll has been closed", store := store }
        else
          { status := 403, body := "Voting is not allowed on this poll", store := store }
      else if !poll.allow_multiple_votes && alreadyVoted then
        { status := 400, body := "You have already voted on this poll", store := store }
      else if !optionValid then
        { status := 400, body := "Invalid option", store := store }
      else
        let res := voteNotifyStep poll voterId voterName freshId now saveOk roomSockets store
        { status := 200, body := "Vote recorded successfully", store := res.store }

/-- The notification step of `POST /api/polls` (`server.js`): right after
the poll is saved, `createNotification('poll_created', …, req.user.id)`
is called with the creator — the acting user — as recipient. -/
def createPollNotifyStep (creatorId : String) (poll : PollDoc) (freshId : String)
    (now : Nat) (saveOk : Bool) (roomSockets : String → Nat)
    (store : List NotificationRec) : CreateResult :=
  createNotification "poll_created"
    { pollTitle := poll.title, pollId := poll.pid }
    creatorId freshId now saveOk roomSockets store

/-- The notification step of `PATCH /api/polls/:id` (`server.js`): after
the status update (which only the creator may perform),
`if (status === 'closed') createNotification('poll_closed', …,
req.user.id)` — again the acting user is the recipient. -/
def patchPollNotifyStep (requesterId : String) (poll : PollDoc) (newStatus : String)
    (freshId : String) (now : Nat) (saveOk : Bool) (roomSockets : String → Nat)
    (store : List NotificationRec) : CreateResult :=
  if newStatus = "closed" then
    createNotification "poll_closed"
      { pollTitle := poll.title, pollId := poll.pid }
      requesterId freshId now saveOk roomSockets store
  else
    { store := store, emitted := [], ret := none }

/-- The notification step of `POST /api/polls/:id/comments`
(`server.js`): `if (poll.creator !== req.user.id)` send a `reply`
notification when `parent_comment_id` is set, else a `comment` one. -/
def commentNotifyStep (poll : PollDoc) (commenterId commenterName : String)
    (parentCommentId : Option String) (commentId : String) (freshId : String)
    (now : Nat) (saveOk : Bool) (roomSockets : String → Nat)
    (store : List NotificationRec) : CreateResult :=
  if poll.creator ≠ commenterId then
    if parentCommentId.isSome then
      createNotification "reply"
        { replierName := commenterName, pollTitle := poll.title,
          pollId := poll.pid, commentId := commentId }
        poll.creator freshId now saveOk roomSockets store
    else
      createNotification "comment"
        { commenterName := commenterName, pollTitle := poll.title,
          pollId := poll.pid, commentId := commentId }
        poll.creator freshId now saveOk roomSockets store
  else
    { store := store, emitted := [], ret := none }

/-- The notification step of the like branch of
`POST /api/comments/:id/like` (`server.js`):
`if (comment.user !== req.user.id)` look up the poll and, when found,
notify the comment author. -/
def commentLikeNotifyStep (comment : CommentDoc) (likerId likerName : String)
    (poll : Option PollDoc) (freshId : String) (now : Nat) (saveOk : Bool)
    (roomSockets : String → Nat) (store : List NotificationRec) : CreateResult :=
  if comment.user ≠ likerId then
    match poll with
    | some poll =>
      createNotification "comment_like"
        { likerName := likerName, pollTitle := poll.title,
          pollId := comment.poll_id, commentId := comment.cid }
        comment.user freshId now saveOk roomSockets store
    | none => { store := store, emitted := [], ret := none }
  else
    { store := store, emitted := [], ret := none }

/-- The notification step of the automatic-closure cron in `server.js`:
each expired poll is closed and `createNotification('poll_closed',
{…, reason: 'automatic_closure'}, poll.creator)` is called. -/
def autoCloseNotifyStep (poll : PollDoc) (freshId : String) (now : Nat)
    (saveOk : Bool) (roomSockets : String → Nat)
    (store : List NotificationRec) : CreateResult :=
  createNotification "poll_closed"
    { pollTitle := poll.title, pollId := poll.pid, reason := "automatic_closure" }
    poll.creator freshId now saveOk roomSockets store

/-! ## Notification read and list endpoints -/

/-- `Notification.findOneAndUpdate({id, userId}, {isRead: true},
{new: true})`: update the first document matching both the id and the
owner, returning the updated document; `none` when no document
matches. -/
def findOneAndUpdateRead (store : List NotificationRec) (nid uid : String) :
    Option NotificationRec × List NotificationRec :=
  match store with
  | [] => (none, [])
  | r :: rs =>
    if r.nid = nid ∧ r.userId = uid then
      (some { r with isRead := true }, { r with isRead := true } :: rs)
    else
      ((findOneAndUpdateRead rs nid uid).1, r :: (findOneAndUpdateRead rs nid uid).2)

/-- Outcome of `PATCH /api/notifications/:id/read`: response status, the
updated document in the response body (if any), the store afterwards,
and the `notificationRead` events emitted as `(room, notificationId)`. -/
structure MarkReadResult where
  status : Nat
  notification : Option NotificationRec
  store : List NotificationRec
  emitted : List (String × String)
deriving Repr, DecidableEq

/-- `PATCH /api/notifications/:id/read` from `server.js`: find-and-update
scoped to `{id: req.params.id, userId: req.user.id}`; a miss is 404
`Notification not found`; a hit emits `notificationRead` to the owner's
room and responds 200 with the updated document. -/
def markReadHandler (store : List NotificationRec) (requesterId nid : String) :
    MarkReadResult :=
  match (findOneAndUpdateRead store nid requesterId).1 with
  | none =>
    { status := 404, notification := none, store := store, emitted := [] }
  | some n =>
    { status := 200, notification := some n,
      store := (findOneAndUpdateRead store nid requesterId).2,
      emitted := [("user_" ++ requesterId, n.nid)] }

/-- Query parameters of `GET /api/notifications` after parsing:
`limit` is absent or a number (default 50 applied in the handler); the
`type` and `priority` filters are skipped when absent or `all`;
`unreadOnly` holds exactly when the query string said `'true'`. -/
structure ListQuery where
  limit : Option Nat := none
  qtype : Option String := none
  qpriority : Option String := none
  unreadOnly : Bool := false
deriving Repr, DecidableEq

/-- The Mongo query object built by `GET /api/notifications`: always
scoped to `userId`, plus the optional `type` / `priority` / `isRead`
conditions. -/
def matchesQuery (uid : String) (q : ListQuery) (n : NotificationRec) : Bool :=
  n.userId = uid
    && (match q.qtype with
        | some t => if t ≠ "all" then n.ntype = t else true
        | none => true)
    && (match q.qpriority with
        | some p => if p ≠ "all" then n.priority = p else true
        | none => true)
    && (if q.unreadOnly then n.isRead = false else true)

/-- The comparator realising `.sort({timestamp: -1})`: descending by
timestamp. -/
def tsDesc (a b : NotificationRec) : Bool :=
  b.timestamp ≤ a.timestamp

/-- `GET /api/notifications` from `server.js`:
`Notification.find(query).sort({timestamp: -1}).limit(limit)` with
`limit` defaulting to 50.  The sort is by `timestamp` descending (stable
merge sort); the handler reads the store and mutates nothing. -/
def getNotificationsHandler (store : List NotificationRec) (uid : String)
    (q : ListQuery) : List NotificationRec :=
  ((store.filter (matchesQuery uid q)).mergeSort tsDesc).take (q.limit.getD 50)

/-! ## Socket.IO connection and room handlers -/

/-- One socket event a connected client can send (`io.on('connection')`
block in `server.js`). -/
inductive SocketEvent where
  | join (userId : String)
  | joinPoll (pollId : String)
  | leavePoll (pollId : String)
deriving Repr, DecidableEq

/-- A live connection: the identity authenticated during the handshake
(`socket.user.id`) and the set of rooms the socket is in. -/
structure Conn where
  authId : String
  rooms : List String
deriving Repr, DecidableEq

/-- `socket.join(room)`: idempotent set insertion. -/
def socketJoin (c : Conn) (room : String) : Conn :=
  if room ∈ c.rooms then c else { c with rooms := room :: c.rooms }

/-- `socket.leave(room)`. -/
def socketLeave (c : Conn) (room : String) : Conn :=
  { c with rooms := c.rooms.filter (· ≠ room) }

/-- The `connection` handler: an authenticated socket is immediately
auto-joined to its own personal room `user_{socket.user.id}`. -/
def onConnection (authId : String) : Conn :=
  socketJoin { authId := authId, rooms := [] } ("user_" ++ authId)

/-- The event handlers registered on a connection: `join` verifies
`socket.user.id === userId` and otherwise only logs a warning, leaving
membership unchanged; `joinPoll` / `leavePoll` manage `poll_{pollId}`
rooms. -/
def handleEvent (c : Conn) : SocketEvent → Conn
  | .join userId => if c.authId = userId then socketJoin c ("user_" ++ userId) else c
  | .joinPoll pollId => socketJoin c ("poll_" ++ pollId)
  | .leavePoll pollId => socketLeave c ("poll_" ++ pollId)

/-- Run a sequence of client-sent socket events on a connection. -/
def runEvents (c : Conn) (events : List SocketEvent) : Conn :=
  events.foldl handleEvent c

example :
    runEvents (onConnection "alice") [.join "bob", .joinPoll "p1"] =
      { authId := "alice", rooms := ["poll_p1", "user_alice"] } := by
  decide

/-! ## Client reconciliation layer

`frontend/src/context/NotificationContext.js`: the reducer over the
notification list held by the client. -/

/-- An entry of the client-side notification list (the fields the
reducer reads or writes). -/
structure ClientNotif where
  cid : String
  ctype : String
  message : String
  timestamp : Nat
  isRead : Bool
deriving Repr, DecidableEq

/-- The payload of a pushed `newNotification` event as consumed by
`ADD_NOTIFICATION`: `id` and `timestamp` may be absent (the reducer
defaults them from `Date.now()`). -/
structure PushedNotif where
  pid : Option String
  ptype : String
  pmessage : String
  ptimestamp : Option Nat
deriving Repr, DecidableEq

/-- The reducer state (`initialState` shape in
`NotificationContext.js`). -/
structure NotificationState where
  notifications : List ClientNotif
  unreadCount : Nat
  loading : Bool
  error : Option String
  connected : Bool
deriving Repr, DecidableEq

/-- `initialState` from `NotificationContext.js`. -/
def initialState : NotificationState :=
  { notifications := [], unreadCount := 0, loading := false,
    error := none, connected := false }

/-- The dispatched actions (`NOTIFICATION_ACTIONS`).  `addNotification`
carries the `Date.now()` value used for the id/timestamp defaults. -/
inductive NotificationAction where
  | setNotifications (payload : List ClientNotif)
  | addNotification (payload : PushedNotif) (now : Nat)
  | markAsRead (id : String)
  | markAllAsRead
  | deleteNotification (id : String)
  | clearAll
  | setLoading (b : Bool)
  | setError (e : Option String)
  | updateUnreadCount (n : Nat)
deriving Repr, DecidableEq

/-- Whether an action is `UPDATE_UNREAD_COUNT`. -/
def NotificationAction.isUpdateUnreadCount : NotificationAction → Bool
  | .updateUnreadCount _ => true
  | _ => false

/-- `notificationReducer` from `NotificationContext.js`, case for case:
`SET_NOTIFICATIONS` replaces the list with the payload and recounts;
`ADD_NOTIFICATION` prepends the pushed payload (defaulting `id` and
`timestamp`, forcing `isRead` to false) and increments the counter;
`MARK_AS_READ` maps over the list and recounts; `MARK_ALL_AS_READ` maps
everything to read with counter 0; `DELETE_NOTIFICATION` filters and
recounts; `CLEAR_ALL` empties; `SET_LOADING` / `SET_ERROR` touch only
those fields; `UPDATE_UNREAD_COUNT` overwrites the counter with the
payload. -/
def notificationReducer (state : NotificationState) (action : NotificationAction) :
    NotificationState :=
  match action with
  | .setNotifications payload =>
    { state with
      notifications := payload
      unreadCount := (payload.filter (fun n => !n.isRead)).length
      loading := false
      error := none }
  | .addNotification payload now =>
    let newNotification : ClientNotif :=
      { cid := payload.pid.getD (toString now)
        ctype := payload.ptype
        message := payload.pmessage
        timestamp := payload.ptimestamp.getD now
        isRead := false }
    { state with
      notifications := newNotification :: state.notifications
      unreadCount := state.unreadCount + 1 }
  | .markAsRead id =>
    let updatedNotifications := state.notifications.map fun n =>
      if n.cid = id then { n with isRead := true } else n
    { state with
      notifications := updatedNotifications
      unreadCount := (updatedNotifications.filter (fun n => !n.isRead)).length }
  | .markAllAsRead =>
    { state with
      notifications := state.notifications.map (fun n => { n with isRead := true })
      unreadCount := 0 }
  | .deleteNotification id =>
    let filteredNotifications := state.notifications.filter (fun n => n.cid ≠ id)
    { state with
      notifications := filteredNotifications
      unreadCount := (filteredNotifications.filter (fun n => !n.isRead)).length }
  | .clearAll =>
    { state with notifications := [], unreadCount := 0 }
  | .setLoading b =>
    { state with loading := b }
  | .setError e =>
    { state with error := e, loading := false }
  | .updateUnreadCount n =>
    { state with unreadCount := n }

/-- Derived unread count of a notification list. -/
def unreadOf (l : List ClientNotif) : Nat :=
  (l.filter (fun n => !n.isRead)).length

/-- The §4.5 invariant: the stored counter equals the derived count. -/
def unreadInvariant (st : NotificationState) : Prop :=
  st.unreadCount = unreadOf st.notifications

instance (st : NotificationState) : Decidable (unreadInvariant st) := by
  unfold unreadInvariant; infer_instance

/-! ## Helper lemmas -/

/-- Personal-room names determine the identity. -/
theorem userRoom_inj {a b : String} (h : "user_" ++ a = "user_" ++ b) : a = b := by
  have h2 : ("user_" ++ a).data = ("user_" ++ b).data := congrArg String.data h
  simp only [String.data_append] at h2
  exact String.ext (List.append_cancel_left h2)

/-- A poll room is never a personal room. -/
theorem pollRoom_ne_userRoom (p u : String) : "poll_" ++ p ≠ "user_" ++ u := by
  intro h
  have h2 : ("poll_" ++ p).data = ("user_" ++ u).data := congrArg String.data h
  simp only [String.data_append] at h2
  simp at h2

/-- Well-formedness of a connection's room set: every room is either the
connection's own personal room or some poll room. -/
def roomsWellFormed (c : Conn) : Prop :=
  ∀ r ∈ c.rooms, r = "user_" ++ c.authId ∨ ∃ p, r = "poll_" ++ p

theorem socketJoin_authId (c : Conn) (room : String) :
    (socketJoin c room).authId = c.authId := by
  unfold socketJoin; split <;> rfl

theorem socketJoin_rooms_sub {c : Conn} {room r : String}
    (hr : r ∈ (socketJoin c room).rooms) : r = room ∨ r ∈ c.rooms := by
  unfold socketJoin at hr
  split at hr
  · exact Or.inr hr
  · exact List.mem_cons.mp hr

theorem handleEvent_authId (c : Conn) (e : SocketEvent) :
    (handleEvent c e).authId = c.authId := by
  cases e with
  | join userId =>
    simp only [handleEvent]
    split
    · exact socketJoin_authId ..
    · rfl
  | joinPoll pollId =>
    simp only [handleEvent]
    exact socketJoin_authId ..
  | leavePoll pollId => rfl

theorem roomsWellFormed_handleEvent {c : Conn} (hc : roomsWellFormed c)
    (e : SocketEvent) : roomsWellFormed (handleEvent c e) := by
  cases e with
  | join userId =>
    simp only [handleEvent]
    split
    · next heq =>
      intro r hr
      rw [socketJoin_authId]
      rcases socketJoin_rooms_sub hr with rfl | hr
      · exact Or.inl (by rw [heq])
      · exact hc r hr
    · exact hc
  | joinPoll pollId =>
    simp only [handleEvent]
    intro r hr
    rw [socketJoin_authId]
    rcases socketJoin_rooms_sub hr with rfl | hr
    · exact Or.inr ⟨pollId, rfl⟩
    · exact hc r hr
  | leavePoll pollId =>
    intro r hr
    exact hc r (List.mem_of_mem_filter hr)

theorem runEvents_pres {c : Conn} (hc : roomsWellFormed c)
    (events : List SocketEvent) :
    roomsWellFormed (runEvents c events) ∧ (runEvents c events).authId = c.authId := by
  induction events generalizing c with
  | nil => exact ⟨hc, rfl⟩
  | cons e es ih =>
    have h1 := roomsWellFormed_handleEvent hc e
    have h2 := handleEvent_authId c e
    have h3 := ih h1
    exact ⟨h3.1, h3.2.trans h2⟩

theorem onConnection_rooms (authId : String) :
    (onConnection authId).rooms = ["user_" ++ authId] := by
  simp [onConnection, socketJoin]

theorem onConnection_authId (authId : String) :
    (onConnection authId).authId = authId := by
  simp [onConnection, socketJoin]

theorem onConnection_wf (authId : String) : roomsWellFormed (onConnection authId) := by
  intro r hr
  rw [onConnection_rooms] at hr
  rw [onConnection_authId]
  rcases List.mem_singleton.mp hr with rfl
  exact Or.inl rfl

/-! ## Claims -/

/-- C7: a `join` request for any identity other than the connection's
authenticated identity leaves room membership unchanged; and along any
sequence of client-sent socket events, the only personal room a
connection can be a member of is the one of its own authenticated
identity. -/
theorem join_respects_identity :
    (∀ (c : Conn) (otherId : String), otherId ≠ c.authId →
        handleEvent c (.join otherId) = c) ∧
    (∀ (authId : String) (events : List SocketEvent) (uid : String),
        ("user_" ++ uid) ∈ (runEvents (onConnection authId) events).rooms →
        uid = authId) := by
  constructor
  · intro c otherId hne
    simp only [handleEvent]
    split
    · next heq => exact absurd heq.symm hne
    · rfl
  · intro authId events uid hmem
    have h := runEvents_pres (onConnection_wf authId) events
    have hr := h.1 _ hmem
    rw [h.2] at hr
    rcases hr with heq | ⟨p, hp⟩
    · exact userRoom_inj heq
    · exact absurd hp.symm (pollRoom_ne_userRoom p uid)

/-- Witness for C7 at concrete inputs. -/
theorem join_respects_identity_witness :
    handleEvent ⟨"alice", ["user_alice"]⟩ (.join "bob") = ⟨"alice", ["user_alice"]⟩ ∧
    "alice" = "alice" := by
  refine ⟨join_respects_identity.1 ⟨"alice", ["user_alice"]⟩ "bob" (by decide), ?_⟩
  exact join_respects_identity.2 "alice" [.joinPoll "p1"] "alice" (by decide)

/-- C8: the server's priority mapping matches the fixed table
(system→high; comment/reply/poll_closed→medium;
vote/comment_like/poll_created→low); the client's reproduction agrees
with the server's on every kind string; and every record
`createNotification` produces carries exactly the mapped priority. -/
theorem priority_table_parity :
    (getNotificationPriority "system" = "high" ∧
     getNotificationPriority "comment" = "medium" ∧
     getNotificationPriority "reply" = "medium" ∧
     getNotificationPriority "poll_closed" = "medium" ∧
     getNotificationPriority "vote" = "low" ∧
     getNotificationPriority "comment_like" = "low" ∧
     getNotificationPriority "poll_created" = "low") ∧
    (∀ ntype : String,
        getNotificationPriority ntype = NotificationService.getNotificationPriority ntype) ∧
    (∀ (ntype : String) (data : NotificationData) (userId freshId : String)
        (now : Nat) (saveOk : Bool) (roomSockets : String → Nat)
        (store : List NotificationRec) (r : NotificationRec),
        (createNotification ntype data userId freshId now saveOk roomSockets store).ret = some r →
        r.priority = getNotificationPriority ntype) := by
  refine ⟨by decide, ?_, ?_⟩
  · intro ntype
    unfold getNotificationPriority NotificationService.getNotificationPriority
    split_ifs <;> simp_all
  · intro ntype data userId freshId now saveOk roomSockets store r h
    cases saveOk with
    | false => simp [createNotification] at h
    | true =>
      simp [createNotification] at h
      rw [← h]

/-- Witness for C8 at concrete inputs. -/
theorem priority_table_parity_witness :
    getNotificationPriority "vote" = NotificationService.getNotificationPriority "vote" ∧
    NotificationRec.priority
      { nid := "n1", userId := "alice", ntype := "vote",
        message := formatNotificationMessage "vote" {}, data := {},
        priority := getNotificationPriority "vote", isRead := false, timestamp := 0 } =
      getNotificationPriority "vote" := by
  refine ⟨priority_table_parity.2.1 "vote", ?_⟩
  exact priority_table_parity.2.2 "vote" {} "alice" "n1" 0 true (fun _ => 0) [] _ rfl

/-- C2: when `createNotification` emits a `newNotification` push, the
record has already been durably appended (it is in the resulting store
and is the function's return value); when the append fails nothing is
emitted and the store is unchanged; and the number of connected sockets
in the target room has no effect on the outcome at all. -/
theorem createNotification_append_before_emit
    (ntype : String) (data : NotificationData) (userId freshId : String)
    (now : Nat) (saveOk : Bool) (roomSockets : String → Nat)
    (store : List NotificationRec) :
    ((createNotification ntype data userId freshId now saveOk roomSockets store).emitted ≠ [] →
        ∃ n, (createNotification ntype data userId freshId now saveOk roomSockets store).ret = some n ∧
          (createNotification ntype data userId freshId now saveOk roomSockets store).store = store ++ [n] ∧
          (createNotification ntype data userId freshId now saveOk roomSockets store).emitted = [("user_" ++ userId, n)] ∧
          n ∈ (createNotification ntype data userId freshId now saveOk roomSockets store).store) ∧
    (saveOk = false →
        (createNotification ntype data userId freshId now saveOk roomSockets store).emitted = [] ∧
        (createNotification ntype data userId freshId now saveOk roomSockets store).store = store ∧
        (createNotification ntype data userId freshId now saveOk roomSockets store).ret = none) ∧
    (∀ roomSockets' : String → Nat,
        createNotification ntype data userId freshId now saveOk roomSockets' store =
        createNotification ntype data userId freshId now saveOk roomSockets store) := by
  refine ⟨?_, ?_, ?_⟩
  · intro hne
    cases saveOk with
    | false => simp [createNotification] at hne
    | true =>
      refine ⟨_, rfl, rfl, rfl, ?_⟩
      simp [createNotification]
  · intro h
    subst h
    exact ⟨rfl, rfl, rfl⟩
  · intro roomSockets'
    cases saveOk <;> rfl

/-- Witness for C2 at concrete inputs. -/
theorem createNotification_append_before_emit_witness :
    ((createNotification "vote" {} "alice" "n1" 0 false (fun _ => 0) []).emitted = [] ∧
     (createNotification "vote" {} "alice" "n1" 0 false (fun _ => 0) []).store = [] ∧
     (createNotification "vote" {} "alice" "n1" 0 false (fun _ => 0) []).ret = none) ∧
    createNotification "vote" {} "alice" "n1" 0 true (fun _ => 5) [] =
      createNotification "vote" {} "alice" "n1" 0 true (fun _ => 0) [] := by
  refine ⟨(createNotification_append_before_emit "vote" {} "alice" "n1" 0 false
    (fun _ => 0) []).2.1 rfl, ?_⟩
  exact (createNotification_append_before_emit "vote" {} "alice" "n1" 0 true
    (fun _ => 0) []).2.2 (fun _ => 5)

/-- C1 counterexample: the poll-creation trigger notifies the acting
user themself.  With actor `alice` creating a poll, a `poll_created`
record whose recipient is `alice` is appended and a `newNotification`
push is emitted to `user_alice` — actor and recipient coincide. -/
theorem selfNotification_pollCreated_counterexample :
    (createPollNotifyStep "alice"
        { pid := "p1", title := "T", creator := "alice", status := "active",
          allow_multiple_votes := false } "n1" 0 true (fun _ => 0) []).store.map
        NotificationRec.userId = ["alice"] ∧
    (createPollNotifyStep "alice"
        { pid := "p1", title := "T", creator := "alice", status := "active",
          allow_multiple_votes := false } "n1" 0 true (fun _ => 0) []).emitted.map
        Prod.fst = ["user_alice"] := by
  decide

/-- C1 amended: self-action suppression holds for the vote, comment,
reply and comment-like triggers — when the actor is the would-be
recipient, no record is created and no push emitted — but the
poll-created trigger and the manual poll-close trigger deliberately
notify the acting creator themself. -/
theorem selfNotification_suppression_amended :
    (∀ (poll : PollDoc) (voterId voterName freshId : String) (now : Nat)
        (saveOk : Bool) (roomSockets : String → Nat) (store : List NotificationRec),
        poll.creator = voterId →
        voteNotifyStep poll voterId voterName freshId now saveOk roomSockets store =
          { store := store, emitted := [], ret := none }) ∧
    (∀ (poll : PollDoc) (commenterId commenterName : String)
        (parentCommentId : Option String) (commentId freshId : String) (now : Nat)
        (saveOk : Bool) (roomSockets : String → Nat) (store : List NotificationRec),
        poll.creator = commenterId →
        commentNotifyStep poll commenterId commenterName parentCommentId commentId
            freshId now saveOk roomSockets store =
          { store := store, emitted := [], ret := none }) ∧
    (∀ (comment : CommentDoc) (likerId likerName : String) (poll : Option PollDoc)
        (freshId : String) (now : Nat) (saveOk : Bool) (roomSockets : String → Nat)
        (store : List NotificationRec),
        comment.user = likerId →
        commentLikeNotifyStep comment likerId likerName poll freshId now saveOk
            roomSockets store =
          { store := store, emitted := [], ret := none }) ∧
    (∀ (creatorId : String) (poll : PollDoc) (freshId : String) (now : Nat)
        (roomSockets : String → Nat) (store : List NotificationRec) (r : NotificationRec),
        (createPollNotifyStep creatorId poll freshId now true roomSockets store).ret = some r →
        r.userId = creatorId ∧
        (createPollNotifyStep creatorId poll freshId now true roomSockets store).emitted =
          [("user_" ++ creatorId, r)]) ∧
    (∀ (requesterId : String) (poll : PollDoc) (freshId : String) (now : Nat)
        (roomSockets : String → Nat) (store : List NotificationRec) (r : NotificationRec),
        (patchPollNotifyStep requesterId poll "closed" freshId now true roomSockets store).ret = some r →
        r.userId = requesterId) := by
  refine ⟨?_, ?_, ?_, ?_, ?_⟩
  · intro poll voterId voterName freshId now saveOk roomSockets store h
    simp [voteNotifyStep, h]
  · intro poll commenterId commenterName parentCommentId commentId freshId now
      saveOk roomSockets store h
    simp [commentNotifyStep, h]
  · intro comment likerId likerName poll freshId now saveOk roomSockets store h
    simp [commentLikeNotifyStep, h]
  · intro creatorId poll freshId now roomSockets store r h
    simp [createPollNotifyStep, createNotification] at h
    subst h
    exact ⟨rfl, rfl⟩
  · intro requesterId poll freshId now roomSockets store r h
    simp [patchPollNotifyStep, createNotification] at h
    subst h
    rfl

/-- Witness for the amended C1 at concrete inputs. -/
theorem selfNotification_suppression_amended_witness :
    voteNotifyStep
        { pid := "p1", title := "T", creator := "alice", status := "active",
          allow_multiple_votes := false } "alice" "Alice" "n1" 0 true (fun _ => 0) [] =
      { store := [], emitted := [], ret := none } ∧
    commentLikeNotifyStep { cid := "c1", user := "bob", poll_id := "p1" }
        "bob" "Bob" none "n2" 0 true (fun _ => 0) [] =
      { store := [], emitted := [], ret := none } := by
  constructor
  · exact selfNotification_suppression_amended.1
      { pid := "p1", title := "T", creator := "alice", status := "active",
        allow_multiple_votes := false } "alice" "Alice" "n1" 0 true (fun _ => 0) [] rfl
  · exact selfNotification_suppression_amended.2.2.1
      { cid := "c1", user := "bob", poll_id := "p1" } "bob" "Bob" none "n2" 0 true
      (fun _ => 0) [] rfl

/-- A concrete active poll owned by `alice`, used in witnesses and
counterexamples. -/
def samplePoll : PollDoc :=
  { pid := "p1", title := "T", creator := "alice", status := "active",
    allow_multiple_votes := false }

/-- C3 counterexample: with the notification append failing
(`saveOk = false`), a vote by `bob` on `alice`'s active poll still gets
HTTP 200 `Vote recorded successfully`, and no notification record
exists — the append failure does not propagate to the vote's caller. -/
theorem notificationFailure_counterexample :
    (voteHandler (some samplePoll)
        "bob" "Bob" true true false "n1" 0 false (fun _ => 0) []).status = 200 ∧
    (voteHandler (some samplePoll)
        "bob" "Bob" true true false "n1" 0 false (fun _ => 0) []).body =
      "Vote recorded successfully" ∧
    (voteHandler (some samplePoll)
        "bob" "Bob" true true false "n1" 0 false (fun _ => 0) []).store = [] := by
  decide

/-- C3 amended: a failed notification append is caught inside
`createNotification` (which logs and returns null), so a vote that
passes all request guards responds 200 with the notification silently
dropped: persistence of the notification is best-effort, not part of the
vote's transaction. -/
theorem notificationFailure_swallowed_amended
    (poll : PollDoc) (voterId voterName : String) (optionValid : Bool)
    (freshId : String) (now : Nat) (roomSockets : String → Nat)
    (store : List NotificationRec)
    (hactive : poll.status = "active") (hvalid : optionValid = true) :
    (voteHandler (some poll) voterId voterName true optionValid false freshId now
        false roomSockets store).status = 200 ∧
    (voteHandler (some poll) voterId voterName true optionValid false freshId now
        false roomSockets store).store = store := by
  subst hvalid
  unfold voteHandler
  simp only [hactive]
  norm_num
  unfold voteNotifyStep
  split
  · simp [createNotification]
  · simp

/-- Witness for the amended C3 at concrete inputs. -/
theorem notificationFailure_swallowed_amended_witness :
    (voteHandler (some samplePoll)
        "bob" "Bob" true true false "n1" 0 false (fun _ => 0) []).status = 200 ∧
    (voteHandler (some samplePoll)
        "bob" "Bob" true true false "n1" 0 false (fun _ => 0) []).store = [] := by
  exact notificationFailure_swallowed_amended samplePoll
    "bob" "Bob" true "n1" 0 (fun _ => 0) [] rfl rfl

/-! Lemmas about `findOneAndUpdateRead`, feeding the `markRead` claim. -/

theorem findOneAndUpdateRead_none_iff (store : List NotificationRec) (nid uid : String) :
    (findOneAndUpdateRead store nid uid).1 = none ↔
      ∀ r ∈ store, ¬(r.nid = nid ∧ r.userId = uid) := by
  induction store with
  | nil => simp [findOneAndUpdateRead]
  | cons r rs ih =>
    simp only [findOneAndUpdateRead]
    split
    · next h =>
      simp only [List.mem_cons]
      constructor
      · intro h2; cases h2
      · intro h2; exact absurd h (h2 r (Or.inl rfl))
    · next h =>
      simp only [List.mem_cons]
      rw [ih]
      constructor
      · intro h2 x hx
        rcases hx with rfl | hx
        · exact h
        · exact h2 x hx
      · intro h2 x hx
        exact h2 x (Or.inr hx)

theorem findOneAndUpdateRead_some (store : List NotificationRec) (nid uid : String)
    (n : NotificationRec) (h : (findOneAndUpdateRead store nid uid).1 = some n) :
    n.isRead = true ∧ n.nid = nid ∧ n.userId = uid := by
  induction store with
  | nil => simp [findOneAndUpdateRead] at h
  | cons r rs ih =>
    simp only [findOneAndUpdateRead] at h
    split at h
    · next hm =>
      simp only [Option.some.injEq] at h
      subst h
      exact ⟨rfl, hm.1, hm.2⟩
    · exact ih h

theorem findOneAndUpdateRead_idem (store : List NotificationRec) (nid uid : String)
    (n : NotificationRec) (st' : List NotificationRec)
    (h : findOneAndUpdateRead store nid uid = (some n, st')) :
    findOneAndUpdateRead st' nid uid = (some n, st') := by
  induction store generalizing st' with
  | nil => simp [findOneAndUpdateRead] at h
  | cons r rs ih =>
    simp only [findOneAndUpdateRead] at h
    split at h
    · next hm =>
      rw [Prod.mk.injEq] at h
      obtain ⟨h1, h2⟩ := h
      subst h2
      simp only [Option.some.injEq] at h1
      subst h1
      simp [findOneAndUpdateRead, hm.1, hm.2]
    · next hm =>
      rw [Prod.mk.injEq] at h
      obtain ⟨h1, h2⟩ := h
      subst h2
      have hrs : findOneAndUpdateRead rs nid uid =
          (some n, (findOneAndUpdateRead rs nid uid).2) := by
        rw [← h1]
      have := ih _ hrs
      simp only [findOneAndUpdateRead]
      rw [if_neg hm]
      rw [this]

/-- C9: `markRead` succeeds with the record set to read exactly when a
notification with that id is owned by the caller; the handler is
idempotent (a second call on the resulting store returns the same
response and changes nothing); and it answers 404 exactly when the id is
absent or owned by a different user. -/
theorem markRead_idempotent_ownership (store : List NotificationRec)
    (requesterId nid : String) :
    ((∃ r ∈ store, r.nid = nid ∧ r.userId = requesterId) →
        (markReadHandler store requesterId nid).status = 200 ∧
        ∃ n, (markReadHandler store requesterId nid).notification = some n ∧
          n.isRead = true ∧ n.nid = nid ∧ n.userId = requesterId) ∧
    (markReadHandler (markReadHandler store requesterId nid).store requesterId nid =
        markReadHandler store requesterId nid) ∧
    ((markReadHandler store requesterId nid).status = 404 ↔
        ¬∃ r ∈ store, r.nid = nid ∧ r.userId = requesterId) := by
  refine ⟨?_, ?_, ?_⟩
  · rintro ⟨r, hr, hprops⟩
    rcases h1 : (findOneAndUpdateRead store nid requesterId).1 with _ | n
    · rw [findOneAndUpdateRead_none_iff] at h1
      exact absurd hprops (h1 r hr)
    · have h2 := findOneAndUpdateRead_some store nid requesterId n h1
      refine ⟨?_, n, ?_, h2⟩
      · simp [markReadHandler, h1]
      · simp [markReadHandler, h1]
  · rcases h1 : (findOneAndUpdateRead store nid requesterId).1 with _ | n
    · simp [markReadHandler, h1]
    · have hpair : findOneAndUpdateRead store nid requesterId =
          (some n, (findOneAndUpdateRead store nid requesterId).2) := by
        rw [← h1]
      have hidem := findOneAndUpdateRead_idem store nid requesterId n
        (findOneAndUpdateRead store nid requesterId).2 hpair
      have hfst : (findOneAndUpdateRead
          (findOneAndUpdateRead store nid requesterId).2 nid requesterId).1 = some n := by
        rw [hidem]
      have hsnd : (findOneAndUpdateRead
          (findOneAndUpdateRead store nid requesterId).2 nid requesterId).2 =
          (findOneAndUpdateRead store nid requesterId).2 := by
        rw [hidem]
      simp [markReadHandler, h1, hfst, hsnd]
  · rcases h1 : (findOneAndUpdateRead store nid requesterId).1 with _ | n
    · have h0 := h1
      rw [findOneAndUpdateRead_none_iff] at h0
      simp only [markReadHandler, h1]
      simp only [true_iff]
      rintro ⟨r, hr, hprops⟩
      exact h0 r hr hprops
    · simp only [markReadHandler, h1]
      constructor
      · intro h
        exact absurd h (by decide)
      · intro h
        exfalso
        have hall : ∀ r ∈ store, ¬(r.nid = nid ∧ r.userId = requesterId) := by
          intro r hr hp
          exact h ⟨r, hr, hp⟩
        have h0 := (findOneAndUpdateRead_none_iff store nid requesterId).mpr hall
        rw [h1] at h0
        cases h0

/-- A concrete unread notification addressed to `alice`. -/
def sampleNotif : NotificationRec :=
  { nid := "n1", userId := "alice", ntype := "vote", message := "m",
    data := {}, priority := "low", isRead := false, timestamp := 0 }

/-- Witness for C9 at concrete inputs. -/
theorem markRead_idempotent_ownership_witness :
    ((markReadHandler [sampleNotif] "alice" "n1").status = 200 ∧
      ∃ n, (markReadHandler [sampleNotif] "alice" "n1").notification = some n ∧
        n.isRead = true ∧ n.nid = "n1" ∧ n.userId = "alice") ∧
    ((markReadHandler [sampleNotif] "bob" "n1").status = 404 ↔
      ¬∃ r ∈ [sampleNotif], r.nid = "n1" ∧ r.userId = "bob") := by
  constructor
  · exact (markRead_idempotent_ownership [sampleNotif] "alice" "n1").1
      ⟨sampleNotif, by decide, by decide⟩
  · exact (markRead_idempotent_ownership [sampleNotif] "bob" "n1").2.2

/-- A concrete pushed `newNotification` payload with id `a`. -/
def pushedA : PushedNotif :=
  { pid := some "a", ptype := "vote", pmessage := "m", ptimestamp := some 1 }

/-- The client entry that `ADD_NOTIFICATION` builds from `pushedA`. -/
def clientA : ClientNotif :=
  { cid := "a", ctype := "vote", message := "m", timestamp := 1, isRead := false }

/-- A client state already holding the pushed entry `clientA`. -/
def stWithA : NotificationState :=
  { notifications := [clientA], unreadCount := 1, loading := false,
    error := none, connected := false }

/-- C4 counterexample: a pushed notification that a stale full-list
fetch does not contain is dropped by `SET_NOTIFICATIONS`: after the push
of id `a`, a fetch with payload `[]` leaves the client list empty — no
id-union merge is performed. -/
theorem fetchMerge_counterexample :
    (notificationReducer initialState (.addNotification pushedA 5)).notifications =
      [clientA] ∧
    (notificationReducer (notificationReducer initialState (.addNotification pushedA 5))
        (.setNotifications [])).notifications = [] := by
  decide

/-- C4 amended: `SET_NOTIFICATIONS` replaces the client list wholesale
with the fetch payload and recomputes the unread count from it — the
fetch is authoritative for existence and `isRead`, and any pushed
notification whose id is absent from the fetch is dropped rather than
kept. -/
theorem fetchReplace_amended (st : NotificationState) (payload : List ClientNotif) :
    (notificationReducer st (.setNotifications payload)).notifications = payload ∧
    (notificationReducer st (.setNotifications payload)).unreadCount = unreadOf payload ∧
    (∀ n ∈ st.notifications, n.cid ∉ payload.map ClientNotif.cid →
        n ∉ (notificationReducer st (.setNotifications payload)).notifications) := by
  refine ⟨rfl, rfl, ?_⟩
  intro n _ hnotin hmem
  exact hnotin (List.mem_map_of_mem ClientNotif.cid hmem)

/-- Witness for the amended C4 at concrete inputs. -/
theorem fetchReplace_amended_witness :
    (notificationReducer stWithA (.setNotifications [])).notifications = [] ∧
    (notificationReducer stWithA (.setNotifications [])).unreadCount = unreadOf [] ∧
    clientA ∉ (notificationReducer stWithA (.setNotifications [])).notifications := by
  have h := fetchReplace_amended stWithA []
  exact ⟨h.1, h.2.1, h.2.2 clientA (by decide) (by decide)⟩

/-- C5 counterexample: dispatching the same pushed event twice is not
idempotent — the duplicate is prepended again and the unread count rises
to 2, so the twice-merged state differs from the once-merged state. -/
theorem pushIdempotence_counterexample :
    (notificationReducer (notificationReducer initialState (.addNotification pushedA 5))
        (.addNotification pushedA 5)).notifications = [clientA, clientA] ∧
    (notificationReducer (notificationReducer initialState (.addNotification pushedA 5))
        (.addNotification pushedA 5)).unreadCount = 2 ∧
    notificationReducer (notificationReducer initialState (.addNotification pushedA 5))
        (.addNotification pushedA 5) ≠
      notificationReducer initialState (.addNotification pushedA 5) := by
  decide

/-- C5 amended: `ADD_NOTIFICATION` performs no deduplication; merging
the same pushed event twice always adds a second list entry and bumps
the unread count a second time, so the result never equals the
once-merged state. -/
theorem pushDuplicate_amended (st : NotificationState) (p : PushedNotif) (now : Nat) :
    (notificationReducer (notificationReducer st (.addNotification p now))
        (.addNotification p now)).notifications.length =
      st.notifications.length + 2 ∧
    (notificationReducer (notificationReducer st (.addNotification p now))
        (.addNotification p now)).unreadCount = st.unreadCount + 2 ∧
    notificationReducer (notificationReducer st (.addNotification p now))
        (.addNotification p now) ≠
      notificationReducer st (.addNotification p now) := by
  refine ⟨rfl, rfl, ?_⟩
  intro h
  have h2 := congrArg (fun s => s.notifications.length) h
  simp only [notificationReducer, List.length_cons] at h2
  omega

/-- Witness for the amended C5 at concrete inputs. -/
theorem pushDuplicate_amended_witness :
    (notificationReducer (notificationReducer initialState (.addNotification pushedA 5))
        (.addNotification pushedA 5)).notifications.length = 2 ∧
    (notificationReducer (notificationReducer initialState (.addNotification pushedA 5))
        (.addNotification pushedA 5)).unreadCount = 2 := by
  have h := pushDuplicate_amended initialState pushedA 5
  exact ⟨h.1, h.2.1⟩

/-- C6 counterexample: the invariant `unreadCount = number of unread
entries` holds initially but is broken by `UPDATE_UNREAD_COUNT`, which
overwrites the counter with an arbitrary payload value (here 5 against
an empty list). -/
theorem unreadDrift_counterexample :
    unreadInvariant initialState ∧
    ¬unreadInvariant (notificationReducer initialState (.updateUnreadCount 5)) := by
  decide

theorem unreadOf_map_read (l : List ClientNotif) :
    unreadOf (l.map (fun n => { n with isRead := true })) = 0 := by
  induction l with
  | nil => rfl
  | cons x xs ih => simp [unreadOf, List.filter_cons] at ih ⊢

/-- C6 amended: every reducer action except `UPDATE_UNREAD_COUNT` leaves
the stored counter equal to the derived count of unread entries;
`UPDATE_UNREAD_COUNT` alone sets the counter directly from its payload
and can therefore drift from the set. -/
theorem unreadInvariant_preserved (st : NotificationState) (a : NotificationAction)
    (hst : unreadInvariant st) (ha : a.isUpdateUnreadCount = false) :
    unreadInvariant (notificationReducer st a) := by
  cases a with
  | setNotifications payload => rfl
  | addNotification p now =>
    show st.unreadCount + 1 = unreadOf (_ :: st.notifications)
    simp [unreadOf, List.filter_cons]
    exact hst
  | markAsRead id => rfl
  | markAllAsRead =>
    show (0 : Nat) = unreadOf (st.notifications.map _)
    rw [unreadOf_map_read]
  | deleteNotification id => rfl
  | clearAll => rfl
  | setLoading b => exact hst
  | setError e => exact hst
  | updateUnreadCount n => exact Bool.noConfusion ha

/-- Witness for the amended C6 at concrete inputs. -/
theorem unreadInvariant_preserved_witness :
    unreadInvariant (notificationReducer initialState .markAllAsRead) :=
  unreadInvariant_preserved initialState .markAllAsRead (by decide) (by decide)

/-! Lemmas about the list endpoint's comparator, feeding C10. -/

theorem tsDesc_trans (a b c : NotificationRec) (hab : tsDesc a b = true)
    (hbc : tsDesc b c = true) : tsDesc a c = true := by
  simp only [tsDesc, decide_eq_true_eq] at *
  omega

theorem tsDesc_total (a b : NotificationRec) : (tsDesc a b || tsDesc b a) = true := by
  simp only [tsDesc, Bool.or_eq_true, decide_eq_true_eq]
  omega

/-- C10: the list endpoint without an explicit `limit` returns at most
50 records; each returned record is a matching record of the store; when
more than 50 records match, exactly 50 are returned, and (ids being
unique) some matching record is omitted while remaining in the store;
and every omitted matching record is no more recent than every returned
one. -/
theorem defaultLimit_50 (store : List NotificationRec) (uid : String)
    (q : ListQuery) (hq : q.limit = none) :
    (getNotificationsHandler store uid q).length ≤ 50 ∧
    (∀ n ∈ getNotificationsHandler store uid q,
        n ∈ store ∧ matchesQuery uid q n = true) ∧
    ((store.filter (matchesQuery uid q)).length > 50 →
        (getNotificationsHandler store uid q).length = 50) ∧
    ((store.map NotificationRec.nid).Nodup →
        (store.filter (matchesQuery uid q)).length > 50 →
        ∃ n ∈ store, matchesQuery uid q n = true ∧
          n ∉ getNotificationsHandler store uid q) ∧
    (∀ a ∈ getNotificationsHandler store uid q, ∀ b ∈ store,
        matchesQuery uid q b = true → b ∉ getNotificationsHandler store uid q →
        b.timestamp ≤ a.timestamp) := by
  have hres : getNotificationsHandler store uid q =
      ((store.filter (matchesQuery uid q)).mergeSort tsDesc).take 50 := by
    unfold getNotificationsHandler
    rw [hq]
    rfl
  refine ⟨?_, ?_, ?_, ?_, ?_⟩
  · rw [hres, List.length_take]
    exact min_le_left _ _
  · intro n hn
    rw [hres] at hn
    have h1 : n ∈ (store.filter (matchesQuery uid q)).mergeSort tsDesc :=
      List.take_subset _ _ hn
    have h2 := List.mem_mergeSort.mp h1
    exact List.mem_filter.mp h2
  · intro hlen
    rw [hres, List.length_take, List.length_mergeSort]
    omega
  · intro hnodup hlen
    by_contra hcon
    push_neg at hcon
    have hsub : store.filter (matchesQuery uid q) ⊆ getNotificationsHandler store uid q := by
      intro x hx
      have hx2 := List.mem_filter.mp hx
      exact hcon x hx2.1 hx2.2
    have hnd : (store.filter (matchesQuery uid q)).Nodup :=
      (List.Nodup.of_map _ hnodup).filter _
    have hle := (List.subperm_of_subset hnd hsub).length_le
    have hle2 : (getNotificationsHandler store uid q).length ≤ 50 := by
      rw [hres, List.length_take]
      exact min_le_left _ _
    omega
  · intro a ha b hb hbq hbnot
    rw [hres] at ha hbnot
    have hbs : b ∈ (store.filter (matchesQuery uid q)).mergeSort tsDesc :=
      List.mem_mergeSort.mpr (List.mem_filter.mpr ⟨hb, hbq⟩)
    have hsplit := List.take_append_drop 50
      ((store.filter (matchesQuery uid q)).mergeSort tsDesc)
    have hbdrop : b ∈ ((store.filter (matchesQuery uid q)).mergeSort tsDesc).drop 50 := by
      rcases List.mem_append.mp (by rw [hsplit]; exact hbs) with h | h
      · exact absurd h hbnot
      · exact h
    have hpw := List.sorted_mergeSort tsDesc_trans tsDesc_total
      (store.filter (matchesQuery uid q))
    have hpw2 : List.Pairwise (fun x y => tsDesc x y = true)
        (((store.filter (matchesQuery uid q)).mergeSort tsDesc).take 50 ++
          ((store.filter (matchesQuery uid q)).mergeSort tsDesc).drop 50) := by
      rw [hsplit]
      exact hpw
    have hrel := (List.pairwise_append.mp hpw2).2.2 a ha b hbdrop
    simpa [tsDesc] using hrel

/-- Witness for C10 at concrete inputs. -/
theorem defaultLimit_50_witness :
    (getNotificationsHandler [sampleNotif] "alice" {}).length ≤ 50 ∧
    (∀ n ∈ getNotificationsHandler [sampleNotif] "alice" {},
        n ∈ [sampleNotif] ∧ matchesQuery "alice" {} n = true) := by
  have h := defaultLimit_50 [sampleNotif] "alice" {} rfl
  exact ⟨h.1, h.2.1⟩
